import Mathlib

/-!
Verification of the crypto pairs-trading engine against its specification.

The Python source is embedded shallowly: floats become exact rationals (ℚ),
`datetime` values become rational timestamps in seconds, Python dicts become
insertion-ordered association lists, and each method becomes a pure Lean
function on an explicit state.  Every definition mirrors the corresponding
function in the repository; statistical library calls (OLS / ADF) that the
code treats as opaque oracles are passed in as parameters where noted.
-/

namespace PairsTrading

/-- Side of one leg of a pair position (enum `PositionSide` with values
`Long` / `Short`, as used by `position_manager.py`). -/
inductive PositionSide
  | long
  | short
deriving DecidableEq, Repr

/-- Open position record, fields as constructed in
`PositionManager.add_position` (src/src/execution/position_manager.py).
`entry_time` is a timestamp in seconds.  `max_profit_pct` models the
attribute that `RiskAgent.should_close_position` attaches lazily via
`hasattr` (`none` = attribute absent). -/
structure Position where
  pair_id : String
  symbol_a : String
  symbol_b : String
  side_a : PositionSide
  side_b : PositionSide
  size_a : ℚ
  size_b : ℚ
  entry_price_a : ℚ
  entry_price_b : ℚ
  current_price_a : ℚ
  current_price_b : ℚ
  hedge_ratio : ℚ
  entry_zscore : ℚ
  current_zscore : ℚ
  entry_time : ℚ
  unrealized_pnl : ℚ
  status : String
  max_profit_pct : Option ℚ
deriving DecidableEq, Repr

/-- Closed-trade record, fields as constructed in
`PositionManager.close_position`. -/
structure Trade where
  pair_id : String
  symbol_a : String
  symbol_b : String
  side_a : PositionSide
  side_b : PositionSide
  size_a : ℚ
  size_b : ℚ
  entry_price_a : ℚ
  entry_price_b : ℚ
  exit_price_a : ℚ
  exit_price_b : ℚ
  hedge_ratio : ℚ
  entry_zscore : ℚ
  exit_zscore : ℚ
  entry_time : ℚ
  exit_time : ℚ
  duration_minutes : ℚ
  pnl : ℚ
  pnl_percent : ℚ
  commission : ℚ
  reason : String
deriving DecidableEq, Repr

/-- Python dict assignment `d[k] = v` on an insertion-ordered association
list: replace in place if the key exists, otherwise append. -/
def dictInsert (l : List (String × Position)) (k : String) (v : Position) :
    List (String × Position) :=
  match l with
  | [] => [(k, v)]
  | (k₀, v₀) :: rest =>
      if k₀ = k then (k, v) :: rest else (k₀, v₀) :: dictInsert rest k v

/-- Python `del d[k]` on an association list. -/
def dictRemove (l : List (String × Position)) (k : String) :
    List (String × Position) :=
  match l with
  | [] => []
  | (k₀, v₀) :: rest =>
      if k₀ = k then rest else (k₀, v₀) :: dictRemove rest k

/-- State of `PositionManager` (src/src/execution/position_manager.py):
open positions keyed by `pair_id`, closed trades, daily and total P&L. -/
structure PositionManager where
  open_positions : List (String × Position)
  closed_trades : List Trade
  daily_pnl : ℚ
  total_pnl : ℚ
deriving DecidableEq, Repr

/-- `PositionManager._calculate_pnl`: long leg gains when price rises,
short leg gains when price falls. -/
def calculatePnl (side : PositionSide) (entry_price current_price size : ℚ) : ℚ :=
  match side with
  | .long => (current_price - entry_price) * size
  | .short => (entry_price - current_price) * size

/-- The `Position` record built inside `PositionManager.add_position`
(`now` stands for `datetime.now()`). -/
def mkPosition (pair_id symbol_a symbol_b : String)
    (side_a side_b : PositionSide)
    (size_a size_b entry_price_a entry_price_b hedge_ratio entry_zscore now : ℚ) :
    Position :=
  { pair_id := pair_id
    symbol_a := symbol_a
    symbol_b := symbol_b
    side_a := side_a
    side_b := side_b
    size_a := size_a
    size_b := size_b
    entry_price_a := entry_price_a
    entry_price_b := entry_price_b
    current_price_a := entry_price_a
    current_price_b := entry_price_b
    hedge_ratio := hedge_ratio
    entry_zscore := entry_zscore
    current_zscore := entry_zscore
    entry_time := now
    unrealized_pnl := 0
    status := "open"
    max_profit_pct := none }

/-- `PositionManager.add_position`: builds the position and stores it under
`pair_id` with a plain dict assignment (there is no existence check in the
source). -/
def addPosition (m : PositionManager) (pair_id symbol_a symbol_b : String)
    (side_a side_b : PositionSide)
    (size_a size_b entry_price_a entry_price_b hedge_ratio entry_zscore now : ℚ) :
    PositionManager × Position :=
  let position := mkPosition pair_id symbol_a symbol_b side_a side_b
    size_a size_b entry_price_a entry_price_b hedge_ratio entry_zscore now
  ({ m with open_positions := dictInsert m.open_positions pair_id position },
   position)

/-- `PositionManager.update_position`: returns the state unchanged when the
pair is unknown or a price is non-positive; otherwise refreshes the current
prices, the current z-score and the unrealized P&L of that one position. -/
def updatePosition (m : PositionManager) (pair_id : String)
    (current_price_a current_price_b current_zscore : ℚ) : PositionManager :=
  match m.open_positions.lookup pair_id with
  | none => m
  | some position =>
      if current_price_a ≤ 0 ∨ current_price_b ≤ 0 then m
      else
        let pnl_a := calculatePnl position.side_a position.entry_price_a
          current_price_a position.size_a
        let pnl_b := calculatePnl position.side_b position.entry_price_b
          current_price_b position.size_b
        let position := { position with
          current_price_a := current_price_a
          current_price_b := current_price_b
          current_zscore := current_zscore
          unrealized_pnl := pnl_a + pnl_b }
        { m with open_positions := dictInsert m.open_positions pair_id position }

/-- `PositionManager.close_position` (`now` stands for `datetime.now()`):
computes the two leg P&Ls at the exit prices, the commission
`(size_a·exit_a + size_b·exit_b) × 0.0006 × 2`, records the trade, updates
daily/total P&L and removes the open position. -/
def closePosition (m : PositionManager) (pair_id : String)
    (exit_price_a exit_price_b exit_zscore : ℚ) (reason : String) (now : ℚ) :
    PositionManager × Option Trade :=
  match m.open_positions.lookup pair_id with
  | none => (m, none)
  | some position =>
      let pnl_a := calculatePnl position.side_a position.entry_price_a
        exit_price_a position.size_a
      let pnl_b := calculatePnl position.side_b position.entry_price_b
        exit_price_b position.size_b
      let total_pnl := pnl_a + pnl_b
      let commission_rate : ℚ := 6 / 10000
      let position_value_a := position.size_a * exit_price_a
      let position_value_b := position.size_b * exit_price_b
      let commission := (position_value_a + position_value_b) * commission_rate * 2
      let net_pnl := total_pnl - commission
      let duration := (now - position.entry_time) / 60
      let initial_value := position.size_a * position.entry_price_a +
        position.size_b * position.entry_price_b
      let pnl_percent := if 0 < initial_value then net_pnl / initial_value * 100 else 0
      let trade : Trade :=
        { pair_id := pair_id
          symbol_a := position.symbol_a
          symbol_b := position.symbol_b
          side_a := position.side_a
          side_b := position.side_b
          size_a := position.size_a
          size_b := position.size_b
          entry_price_a := position.entry_price_a
          entry_price_b := position.entry_price_b
          exit_price_a := exit_price_a
          exit_price_b := exit_price_b
          hedge_ratio := position.hedge_ratio
          entry_zscore := position.entry_zscore
          exit_zscore := exit_zscore
          entry_time := position.entry_time
          exit_time := now
          duration_minutes := duration
          pnl := net_pnl
          pnl_percent := pnl_percent
          commission := commission
          reason := reason }
      ({ m with
          open_positions := dictRemove m.open_positions pair_id
          closed_trades := m.closed_trades ++ [trade]
          daily_pnl := m.daily_pnl + net_pnl
          total_pnl := m.total_pnl + net_pnl },
       some trade)

/-- The slice of `config.trading` read by `RiskAgent`
(src/src/agents/risk_agent.py). -/
structure TradingConfig where
  max_position_size : ℚ
  risk_per_trade : ℚ
  max_concurrent_pairs : ℕ
  daily_loss_limit : ℚ
deriving DecidableEq, Repr

/-- The session statistics returned by
`performance_tracker.get_session_stats()` that
`RiskAgent.calculate_position_size` consumes. -/
structure SessionStats where
  win_rate : ℚ
  total_trades : ℕ
deriving DecidableEq, Repr

/-- `RiskAgent.calculate_position_size`: base size scaled by the
performance multiplier, the confidence multiplier `0.5 + 0.5·confidence`
and the volatility multiplier, capped by `10 × risk amount` and
`0.2 × balance`, floored at `$500`; both legs get the same size. -/
def calculatePositionSize (cfg : TradingConfig) (stats : SessionStats)
    (account_balance signal_confidence : ℚ) (volatility : Option ℚ) : ℚ × ℚ :=
  let base_size := cfg.max_position_size
  let base_size :=
    if stats.total_trades ≥ 5 then
      if stats.win_rate ≥ 6/10 then base_size * 2
      else if stats.win_rate ≥ 55/100 then base_size * (3/2)
      else base_size
    else base_size
  let confidence_multiplier := 1/2 + signal_confidence * (1/2)
  let vol_multiplier :=
    match volatility with
    | some v => if v ≠ 0 ∧ v > 0 then (if v > 1/2 then min 1 ((1/2) / v) else 1) else 1
    | none => 1
  let risk_amount := account_balance * cfg.risk_per_trade
  let position_size :=
    min (base_size * confidence_multiplier * vol_multiplier) (risk_amount * 10)
  let position_size := min position_size (account_balance * (1/5))
  let position_size := max position_size 500
  (position_size, position_size)

/-- Mutable drawdown state of `RiskAgent` (`max_equity`,
`current_drawdown`). -/
structure RiskState where
  max_equity : ℚ
  current_drawdown : ℚ
deriving DecidableEq, Repr

/-- `RiskAgent._update_drawdown`. -/
def updateDrawdown (rs : RiskState) (current_equity : ℚ) : RiskState :=
  let max_equity := if current_equity > rs.max_equity then current_equity else rs.max_equity
  let current_drawdown :=
    if max_equity > 0 then (max_equity - current_equity) / max_equity else 0
  { max_equity := max_equity, current_drawdown := current_drawdown }

/-- The four violation kinds appended by `RiskAgent.check_risk_limits`
(the source appends formatted strings; only the kind matters here). -/
inductive Violation
  | maxConcurrentPositions
  | dailyLossLimit
  | totalExposure
  | highDrawdown
deriving DecidableEq, Repr

/-- Exposure of one position as summed in `RiskAgent.check_risk_limits`:
quantities times current price, falling back to entry price when the
current price is not positive. -/
def positionExposure (pos : Position) : ℚ :=
  let price_a := if pos.current_price_a > 0 then pos.current_price_a else pos.entry_price_a
  let price_b := if pos.current_price_b > 0 then pos.current_price_b else pos.entry_price_b
  pos.size_a * price_a + pos.size_b * price_b

/-- `RiskAgent.check_risk_limits`: collects violations for the position
count, daily loss, total exposure above `0.8 × balance` and drawdown above
`0.20`; safe iff no violation.  Returns the updated drawdown state. -/
def checkRiskLimits (cfg : TradingConfig) (rs : RiskState)
    (current_positions : List Position) (daily_pnl account_balance : ℚ) :
    RiskState × Bool × List Violation :=
  let v₁ : List Violation :=
    if current_positions.length ≥ cfg.max_concurrent_pairs then
      [Violation.maxConcurrentPositions] else []
  let v₂ : List Violation :=
    if daily_pnl < -cfg.daily_loss_limit then [Violation.dailyLossLimit] else []
  let total_exposure := (current_positions.map positionExposure).sum
  let max_exposure := account_balance * (8/10)
  let v₃ : List Violation :=
    if total_exposure > max_exposure then [Violation.totalExposure] else []
  let rs := updateDrawdown rs account_balance
  let v₄ : List Violation :=
    if rs.current_drawdown > 1/5 then [Violation.highDrawdown] else []
  let violations := v₁ ++ v₂ ++ v₃ ++ v₄
  (rs, violations.isEmpty, violations)

/-- `RiskAgent.get_recommendation`: `PAUSE` when the risk check fails,
`HOLD` when an entry is requested at the position limit, else `APPROVE`.
Actions are the source's string constants. -/
def getRecommendation (cfg : TradingConfig) (rs : RiskState)
    (signal_action : String) (current_positions : List Position)
    (account_balance daily_pnl : ℚ) : RiskState × String :=
  let result := checkRiskLimits cfg rs current_positions daily_pnl account_balance
  if ¬ result.2.1 then (result.1, "PAUSE")
  else if (signal_action = "LONG_SPREAD" ∨ signal_action = "SHORT_SPREAD") ∧
      current_positions.length ≥ cfg.max_concurrent_pairs then
    (result.1, "HOLD")
  else (result.1, "APPROVE")

/-- Z-score thresholds read from `config.zscore` by
`RiskAgent.should_close_position`. -/
structure ZscoreConfig where
  stoploss_threshold : ℚ
  exit_threshold : ℚ
deriving DecidableEq, Repr

/-- `RiskAgent.should_close_position` (`now` stands for `datetime.now()`;
`max_holding_hours` is the YAML `max_holding_period_hours`, default 24).
The current-price arguments are carried but — as in the source — never
read; the verdict uses the position's stored `unrealized_pnl`.  Returns
the verdict and the position (whose `max_profit_pct` the trailing-stop
logic may have updated).  The guard `unrealized_pnl ≠ 0` mirrors Python's
truthiness test `if position.unrealized_pnl and …`. -/
def shouldClosePosition (zcfg : ZscoreConfig) (max_holding_hours : ℚ)
    (position : Position) (now : ℚ)
    (current_price_a current_price_b current_zscore : ℚ) : Bool × Position :=
  let _ := current_price_a
  let _ := current_price_b
  let holding_seconds := now - position.entry_time
  -- Emergency stop loss (always active)
  if position.unrealized_pnl ≠ 0 ∧ position.unrealized_pnl < -100 then
    (true, position)
  -- Minimum holding time for non-emergency exits
  else if holding_seconds < 30 then (false, position)
  else
    let position_value := position.size_a * position.entry_price_a
    let pnl_pct :=
      if position_value > 0 then position.unrealized_pnl / position_value * 100 else 0
    let rest : Position → Bool × Position := fun position =>
      if pnl_pct ≤ -(3/10) then (true, position)
      else if |current_zscore| > zcfg.stoploss_threshold then (true, position)
      else if |current_zscore| < zcfg.exit_threshold then (true, position)
      else if holding_seconds > max_holding_hours * 3600 then (true, position)
      else if position.unrealized_pnl ≠ 0 ∧
          position.unrealized_pnl < -(position.size_a * position.entry_price_a) * (5/1000) then
        (true, position)
      else (false, position)
    if pnl_pct ≥ 2/10 then (true, position)
    else if pnl_pct ≥ 0 ∧ holding_seconds ≥ 120 then (true, position)
    else if pnl_pct ≥ 3/10 then
      let max_profit_pct :=
        match position.max_profit_pct with
        | none => pnl_pct
        | some m => max m pnl_pct
      let position := { position with max_profit_pct := some max_profit_pct }
      if pnl_pct < max_profit_pct - 15/100 then (true, position)
      else rest position
    else rest position

/-- `OrchestratorAgent._sentiment_to_action`: converts the sentiment score
to a vote; with the score fixed at 0 (sentiment disabled) it echoes the
quant action with confidence 0.9. -/
def sentimentToAction (sentiment_score : ℚ) (quant_action : String)
    (has_position : Bool) : String × ℚ :=
  if sentiment_score < -(6/10) ∧ quant_action = "LONG_SPREAD" then ("HOLD", 7/10)
  else if sentiment_score > 6/10 ∧ quant_action = "SHORT_SPREAD" then ("HOLD", 7/10)
  else if |sentiment_score| > 8/10 ∧ has_position then ("CLOSE", 6/10)
  else if sentiment_score = 0 then (quant_action, 9/10)
  else (quant_action, 1/2 + |sentiment_score| * (2/10))

/-- `OrchestratorAgent._combine_agent_decisions` specialised to its two
voters (quant, sentiment): equal votes merge into one bucket of count 2;
distinct votes tie on count and Python's `max` keeps the first-inserted
(quant) bucket unless the sentiment bucket has strictly higher
confidence.  Returns the winning action and `total_confidence / 2`. -/
def combineAgentDecisions (quant_action : String) (quant_confidence : ℚ)
    (sentiment_score : ℚ) (has_position : Bool) : String × ℚ :=
  let s := sentimentToAction sentiment_score quant_action has_position
  if s.1 = quant_action then (quant_action, (quant_confidence + s.2) / 2)
  else if s.2 > quant_confidence then (s.1, s.2 / 2)
  else (quant_action, quant_confidence / 2)

/-- Action emitted by the second (candle-aware) definition of
`OrchestratorAgent.make_decision` (src/src/agents/orchestrator.py,
the overriding definition): the aggregated strategy signal is abstracted
to its resulting action/confidence, sentiment is disabled (score 0) as in
the source, the combined decision is passed to
`RiskAgent.get_recommendation`, and any non-`APPROVE` recommendation
replaces the decision's action. -/
def makeDecisionAction (cfg : TradingConfig) (rs : RiskState)
    (strategy_action : String) (strategy_confidence : ℚ)
    (current_positions : List Position) (pair_id : String)
    (account_balance daily_pnl : ℚ) : String :=
  let has_position := current_positions.any (fun p => p.pair_id = pair_id)
  let decision :=
    combineAgentDecisions strategy_action strategy_confidence 0 has_position
  let recommendation :=
    (getRecommendation cfg rs decision.1 current_positions
      account_balance daily_pnl).2
  if recommendation ≠ "APPROVE" then recommendation else decision.1

/-- One entry of the `actions` voting dict of
`StrategyManager._aggregate_signals`. -/
structure ActionBucket where
  action : String
  count : ℕ
  total_confidence : ℚ
  strategies : List String
deriving DecidableEq, Repr

/-- The fixed strategy weights set in `StrategyManager.__init__`. -/
def strategyWeights : List (String × ℚ) :=
  [("engle_granger", 4/10), ("orderbook_imbalance", 3/10),
   ("correlation_rsi", 2/10), ("mean_reversion", 1/10)]

/-- Register one strategy's vote in the insertion-ordered bucket list
(the dict update inside `_aggregate_signals`). -/
def addVote (buckets : List ActionBucket) (name action : String)
    (weighted_confidence : ℚ) : List ActionBucket :=
  match buckets with
  | [] => [⟨action, 1, weighted_confidence, [name]⟩]
  | b :: rest =>
      if b.action = action then
        { b with
          count := b.count + 1
          total_confidence := b.total_confidence + weighted_confidence
          strategies := b.strategies ++ [name] } :: rest
      else b :: addVote rest name action weighted_confidence

/-- Strict order on the sort key `(count, total_confidence)` used by
`_aggregate_signals`. -/
def bucketLt (a b : ActionBucket) : Prop :=
  a.count < b.count ∨ (a.count = b.count ∧ a.total_confidence < b.total_confidence)

instance (a b : ActionBucket) : Decidable (bucketLt a b) := by
  unfold bucketLt
  infer_instance

/-- First maximal bucket under `(count, total_confidence)`: the head of
Python's stable descending sort, i.e. the earliest-inserted maximum. -/
def pickBest (first : ActionBucket) (rest : List ActionBucket) : ActionBucket :=
  rest.foldl (fun acc b => if bucketLt acc b then b else acc) first

/-- Result record of `_aggregate_signals` (the `strategy_signals` and
`metadata` payloads carry no decision content and are omitted). -/
structure AggregatedSignal where
  action : String
  confidence : ℚ
  consensus : String
deriving DecidableEq, Repr

/-- `StrategyManager._aggregate_signals` over the signal list
`(name, action, confidence)` in the manager's iteration order
(engle_granger, orderbook_imbalance, correlation_rsi, mean_reversion).
Votes are weighted by `weights[name]`, the dominant action is the first
maximum of `(count, total_confidence)`, and the consensus label follows
the source's cascade with `len(self.strategies) = 4`. -/
def aggregateSignals (weights : List (String × ℚ))
    (signals : List (String × String × ℚ)) : AggregatedSignal :=
  let step := fun (acc : List ActionBucket × ℚ) (s : String × String × ℚ) =>
    let weight := (weights.lookup s.1).getD 0
    (addVote acc.1 s.1 s.2.1 (s.2.2 * weight), acc.2 + weight)
  let folded := signals.foldl step ([], 0)
  let total_weight := folded.2
  match folded.1 with
  | [] => { action := "HOLD", confidence := 0, consensus := "NONE" }
  | first :: rest =>
      let best := pickBest first rest
      let result :=
        if best.count = 4 then ("STRONG", best.action)
        else if (best.count : ℚ) ≥ 4 / 2 then ("MODERATE", best.action)
        else if best.total_confidence > 7/10 then ("MODERATE", best.action)
        else if (first :: rest).length > 2 then ("CONFLICTING", "HOLD")
        else ("WEAK", best.action)
      let avg_confidence :=
        if total_weight > 0 then best.total_confidence / total_weight else 0
      { action := result.2, confidence := avg_confidence, consensus := result.1 }

/-- Signal of `EngleGrangerStrategy` (action and confidence; the
diagnostic fields carry no decision content). -/
structure EGSignal where
  action : String
  confidence : ℚ
deriving DecidableEq, Repr

/-- Decision logic of `EngleGrangerStrategy.generate_signal`
(src/src/strategy/engle_granger_strategy.py) with the constructor-default
thresholds (`min_data_points = 30`, `zscore_entry = 2.0`,
`zscore_exit = 0.3`, `zscore_stoploss = 3.5`) used by `StrategyManager`.
`len_a`/`len_b` are the lengths of the deduplicated input series;
`adf_pvalue` and `zscore` are the outputs of the OLS/ADF oracle
(`engle_granger_test` and `calculate_spread_zscore`), which wrap opaque
floating-point statsmodels calls and are therefore taken as inputs. -/
def egGenerateSignal (len_a len_b : ℕ) (adf_pvalue zscore : ℚ)
    (current_position : Option String) : EGSignal :=
  if len_a < 30 ∨ len_b < 30 then { action := "HOLD", confidence := 0 }
  else
    match current_position with
    | some _ =>
        if |zscore| > 35/10 then { action := "CLOSE", confidence := 95/100 }
        else if |zscore| < 3/10 then { action := "CLOSE", confidence := 9/10 }
        else { action := "HOLD", confidence := 1/2 }
    | none =>
        let is_strong_cointegration := adf_pvalue < 1/10
        let is_weak_cointegration := adf_pvalue < 2/10
        if ¬ is_weak_cointegration then { action := "HOLD", confidence := 0 }
        else
          let quality :=
            if is_strong_cointegration then 1
            else max (1/2) (1 - (adf_pvalue - 1/10) * 5)
          if zscore > 2 then
            { action := "SHORT_SPREAD",
              confidence := min (95/100) (6/10 + |zscore| / 10) * quality }
          else if zscore < -2 then
            { action := "LONG_SPREAD",
              confidence := min (95/100) (6/10 + |zscore| / 10) * quality }
          else { action := "HOLD", confidence := 1/2 }

/-- State of `OrderRateLimiter` (src/src/execution/rate_limiter.py):
recorded order timestamps oldest-first (deque of maxlen 100), plus the
cooldown bookkeeping. -/
structure RateLimiterState where
  recent_orders : List ℚ
  in_cooldown : Bool
  cooldown_until : Option ℚ
  consecutive_errors : ℕ
deriving DecidableEq, Repr

/-- Fresh `OrderRateLimiter`. -/
def initRateLimiter : RateLimiterState :=
  { recent_orders := [], in_cooldown := false, cooldown_until := none,
    consecutive_errors := 0 }

/-- `OrderRateLimiter.acquire` at wall-clock time `now` (the `now`
captured at entry; the source never refreshes it after its sleeps).
An expired cooldown is cleared; timestamps older than one second are
popped from the front; when five or more remain the source sleeps 0.2 s
but then — without re-checking — appends `now` and returns `True`, so the
call is always recorded and always succeeds. -/
def acquire (s : RateLimiterState) (now : ℚ) : RateLimiterState × Bool :=
  let s :=
    match s.in_cooldown, s.cooldown_until with
    | true, some cooldown_until =>
        if now < cooldown_until then s
        else { s with in_cooldown := false, cooldown_until := none }
    | _, _ => s
  let cutoff := now - 1
  let recent := s.recent_orders.dropWhile (fun t => t < cutoff)
  let appended := recent ++ [now]
  let appended :=
    if appended.length > 100 then appended.drop (appended.length - 100)
    else appended
  ({ s with recent_orders := appended }, true)

/-- Sequential run of `acquire`: returns the final state and, per call,
the entry timestamp paired with the returned flag. -/
def acquireRun (s : RateLimiterState) (times : List ℚ) :
    RateLimiterState × List (ℚ × Bool) :=
  match times with
  | [] => (s, [])
  | t :: rest =>
      let step := acquire s t
      let tail := acquireRun step.1 rest
      (tail.1, (t, step.2) :: tail.2)

/-- Per-symbol body of `TradingEngine._update_price_data`
(src/src/main.py): when the latest price is positive and the last stored
sample is at least one second older than `now` (an empty series compares
against `datetime.min` and always passes), append `(now, price)` and keep
only the most recent 10 000 points. -/
def updatePriceSeries (series : List (ℚ × ℚ)) (now price : ℚ) :
    List (ℚ × ℚ) :=
  if price > 0 then
    let appended := series ++ [(now, price)]
    let truncated :=
      if appended.length > 10000 then appended.drop (appended.length - 10000)
      else appended
    match series.getLast? with
    | some last => if now - last.1 ≥ 1 then truncated else series
    | none => truncated
  else series

/-! Helper lemmas about the association-list dictionary. -/

theorem lookup_dictInsert (l : List (String × Position)) (k : String) (v : Position) :
    (dictInsert l k v).lookup k = some v := by
  induction l with
  | nil => simp [dictInsert, List.lookup]
  | cons hd tl ih =>
      obtain ⟨k₀, v₀⟩ := hd
      by_cases h : k₀ = k
      · simp [dictInsert, h, List.lookup]
      · simp only [dictInsert, if_neg h, List.lookup]
        have : (k == k₀) = false := by
          simp [beq_iff_eq]
          exact fun hh => h hh.symm
        simp [this, ih]

theorem lookup_dictInsert_ne (l : List (String × Position)) (k k₀ : String)
    (v : Position) (h : k₀ ≠ k) :
    (dictInsert l k v).lookup k₀ = l.lookup k₀ := by
  induction l with
  | nil =>
      have : (k₀ == k) = false := by simp [beq_iff_eq, h]
      simp [dictInsert, List.lookup, this]
  | cons hd tl ih =>
      obtain ⟨k₁, v₁⟩ := hd
      by_cases hk : k₁ = k
      · subst hk
        have hne : (k₀ == k₁) = false := by simp [beq_iff_eq, h]
        simp [dictInsert, List.lookup, hne]
      · simp only [dictInsert, if_neg hk, List.lookup]
        by_cases he : k₀ = k₁
        · simp [he]
        · have hne : (k₀ == k₁) = false := by simp [beq_iff_eq, he]
          simp [hne, ih]

/-! Concrete fixtures used by counterexamples and witnesses. -/

/-- A market-neutral open position: long 1 unit of A at 100,
short 1 unit of B at 100, opened at time 0. -/
def samplePosition : Position :=
  { pair_id := "BTCUSDT_ETHUSDT", symbol_a := "BTCUSDT", symbol_b := "ETHUSDT",
    side_a := .long, side_b := .short, size_a := 1, size_b := 1,
    entry_price_a := 100, entry_price_b := 100,
    current_price_a := 100, current_price_b := 100, hedge_ratio := 1,
    entry_zscore := 0, current_zscore := 0, entry_time := 0,
    unrealized_pnl := 0, status := "open", max_profit_pct := none }

/-- A manager holding exactly `samplePosition`. -/
def sampleManager : PositionManager :=
  { open_positions := [("BTCUSDT_ETHUSDT", samplePosition)],
    closed_trades := [], daily_pnl := 0, total_pnl := 0 }

/-!  C1 — commission and net P&L of a closed trade.  -/

/-- C1 counterexample: close `samplePosition` at exit prices (110, 100).
The recorded commission is `(1·110 + 1·100) × 0.0006 × 2 = 0.252`,
which differs from the claimed
`entry notional × fee + exit notional × fee = 200×0.0006 + 210×0.0006 = 0.246`. -/
theorem closePosition_commission_counterexample :
    ((closePosition sampleManager "BTCUSDT_ETHUSDT" 110 100 0 "take profit" 600).2.map
        Trade.commission) = some (63/250) ∧
    (63/250 : ℚ) ≠
      (1 * 100 + 1 * 100) * (6/10000) + (1 * 110 + 1 * 100) * (6/10000) := by
  constructor
  · simp only [closePosition, sampleManager, samplePosition, calculatePnl,
      List.lookup]
    norm_num
  · norm_num

/-- C1 (amended): for every position closed via `close_position`, the
recorded commission equals the exit notional of both legs times the taker
fee 0.0006 times 2 (the source charges the round trip on the exit
notional, not on entry plus exit), and the trade's `pnl` equals leg-A P&L
plus leg-B P&L minus that commission. -/
theorem closePosition_commission_and_pnl (m : PositionManager) (pair_id : String)
    (exit_price_a exit_price_b exit_zscore : ℚ) (reason : String) (now : ℚ)
    (position : Position)
    (h : m.open_positions.lookup pair_id = some position) :
    ∃ t, (closePosition m pair_id exit_price_a exit_price_b exit_zscore reason now).2
        = some t ∧
      t.commission =
        (position.size_a * exit_price_a + position.size_b * exit_price_b)
          * (6/10000) * 2 ∧
      t.pnl =
        calculatePnl position.side_a position.entry_price_a exit_price_a
            position.size_a
          + calculatePnl position.side_b position.entry_price_b exit_price_b
            position.size_b
          - t.commission := by
  unfold closePosition
  rw [h]
  exact ⟨_, rfl, rfl, rfl⟩

/-- C1 witness: the amended theorem applied to `sampleManager`. -/
theorem closePosition_commission_and_pnl_witness :
    ∃ t, (closePosition sampleManager "BTCUSDT_ETHUSDT" 110 100 0 "take profit" 600).2
        = some t ∧
      t.commission = (1 * 110 + 1 * 100) * (6/10000) * 2 ∧
      t.pnl =
        calculatePnl PositionSide.long 100 110 1
          + calculatePnl PositionSide.short 100 100 1 - t.commission :=
  closePosition_commission_and_pnl sampleManager "BTCUSDT_ETHUSDT" 110 100 0
    "take profit" 600 samplePosition rfl

/-!  C7 — behaviour of `add_position` when the pair already exists.  -/

/-- C7 counterexample: `sampleManager` already holds a position for
`"BTCUSDT_ETHUSDT"` (entry price 100), yet `add_position` for the same
pair stores the new position (entry price 200): the existing position is
not left in place, so the claimed rejection does not happen. -/
theorem addPosition_overwrites_counterexample :
    sampleManager.open_positions.lookup "BTCUSDT_ETHUSDT" = some samplePosition ∧
    (addPosition sampleManager "BTCUSDT_ETHUSDT" "BTCUSDT" "ETHUSDT"
        .long .short 2 2 200 200 1 0 50).1.open_positions.lookup "BTCUSDT_ETHUSDT"
      ≠ some samplePosition := by
  refine ⟨rfl, ?_⟩
  intro h
  have := congrArg (fun o => (Option.map Position.entry_price_a o).getD 0) h
  simp [addPosition, dictInsert, sampleManager, mkPosition, samplePosition,
    List.lookup] at this

/-- C7 (amended): `add_position` performs no existence check: for every
manager state it stores the freshly built position under `pair_id`,
replacing any position already recorded for that pair. -/
theorem addPosition_stores_new_position (m : PositionManager)
    (pair_id symbol_a symbol_b : String) (side_a side_b : PositionSide)
    (size_a size_b entry_price_a entry_price_b hedge_ratio entry_zscore now : ℚ) :
    ((addPosition m pair_id symbol_a symbol_b side_a side_b size_a size_b
        entry_price_a entry_price_b hedge_ratio entry_zscore now).1).open_positions.lookup
        pair_id
      = some (mkPosition pair_id symbol_a symbol_b side_a side_b size_a size_b
          entry_price_a entry_price_b hedge_ratio entry_zscore now) := by
  unfold addPosition
  exact lookup_dictInsert m.open_positions pair_id _

/-!  C10 — `update_position` is atomic on invalid input and otherwise a
frame-preserving update of one position.  -/

/-- C10: `update_position` leaves the whole manager state unchanged when
the pair is unknown or a supplied price is non-positive; on valid input it
rewrites only `current_price_a`, `current_price_b`, `current_zscore` and
`unrealized_pnl` of that one position (the record-update form fixes every
other field), leaves every other pair's entry untouched, and never
touches `daily_pnl`, `total_pnl` or `closed_trades`. -/
theorem updatePosition_frame :
    (∀ (m : PositionManager) (pair_id : String) (pa pb z : ℚ),
      m.open_positions.lookup pair_id = none →
      updatePosition m pair_id pa pb z = m) ∧
    (∀ (m : PositionManager) (pair_id : String) (pa pb z : ℚ),
      pa ≤ 0 ∨ pb ≤ 0 → updatePosition m pair_id pa pb z = m) ∧
    (∀ (m : PositionManager) (pair_id : String) (pa pb z : ℚ)
        (position : Position),
      m.open_positions.lookup pair_id = some position → 0 < pa → 0 < pb →
      (updatePosition m pair_id pa pb z).daily_pnl = m.daily_pnl ∧
      (updatePosition m pair_id pa pb z).total_pnl = m.total_pnl ∧
      (updatePosition m pair_id pa pb z).closed_trades = m.closed_trades ∧
      (updatePosition m pair_id pa pb z).open_positions.lookup pair_id =
        some { position with
          current_price_a := pa
          current_price_b := pb
          current_zscore := z
          unrealized_pnl :=
            calculatePnl position.side_a position.entry_price_a pa position.size_a
              + calculatePnl position.side_b position.entry_price_b pb
                position.size_b } ∧
      (∀ k, k ≠ pair_id →
        (updatePosition m pair_id pa pb z).open_positions.lookup k =
          m.open_positions.lookup k)) := by
  refine ⟨?_, ?_, ?_⟩
  · intro m pair_id pa pb z h
    unfold updatePosition
    rw [h]
  · intro m pair_id pa pb z h
    unfold updatePosition
    cases hl : m.open_positions.lookup pair_id with
    | none => rfl
    | some position => simp [if_pos h]
  · intro m pair_id pa pb z position h hpa hpb
    have hcond : ¬ (pa ≤ 0 ∨ pb ≤ 0) := by
      push_neg
      exact ⟨hpa, hpb⟩
    unfold updatePosition
    rw [h]
    simp only [if_neg hcond]
    refine ⟨trivial, trivial, trivial, ?_, ?_⟩
    · exact lookup_dictInsert m.open_positions pair_id _
    · intro k hk
      exact lookup_dictInsert_ne m.open_positions pair_id k _ hk

/-- C10 witness: the three parts of the frame theorem applied to
`sampleManager` — an unknown pair, a non-positive price, and a valid
update at prices (110, 90) with z-score 1. -/
theorem updatePosition_frame_witness :
    (updatePosition sampleManager "XRPUSDT_DOGEUSDT" 110 90 1 = sampleManager) ∧
    (updatePosition sampleManager "BTCUSDT_ETHUSDT" 0 90 1 = sampleManager) ∧
    ((updatePosition sampleManager "BTCUSDT_ETHUSDT" 110 90 1).open_positions.lookup
        "BTCUSDT_ETHUSDT" =
      some { samplePosition with
        current_price_a := 110
        current_price_b := 90
        current_zscore := 1
        unrealized_pnl :=
          calculatePnl samplePosition.side_a samplePosition.entry_price_a 110
              samplePosition.size_a
            + calculatePnl samplePosition.side_b samplePosition.entry_price_b 90
              samplePosition.size_b }) := by
  refine ⟨?_, ?_, ?_⟩
  · exact updatePosition_frame.1 sampleManager "XRPUSDT_DOGEUSDT" 110 90 1 rfl
  · exact updatePosition_frame.2.1 sampleManager "BTCUSDT_ETHUSDT" 0 90 1
      (Or.inl le_rfl)
  · exact (updatePosition_frame.2.2 sampleManager "BTCUSDT_ETHUSDT" 110 90 1
      samplePosition rfl (by norm_num) (by norm_num)).2.2.2.1

/-!  C4 — minimum holding time and the emergency stop.  -/

/-- C4: `should_close_position` never closes before 30 s of holding time
unless the always-active emergency stop (`unrealized_pnl < −100`) fires,
and under that condition it closes regardless of holding time. -/
theorem shouldClose_min_hold_emergency (zcfg : ZscoreConfig)
    (max_holding_hours : ℚ) (position : Position) (now pa pb z : ℚ) :
    (now - position.entry_time < 30 →
      ((shouldClosePosition zcfg max_holding_hours position now pa pb z).1 = true ↔
        position.unrealized_pnl < -100)) ∧
    (position.unrealized_pnl < -100 →
      (shouldClosePosition zcfg max_holding_hours position now pa pb z).1 = true) := by
  by_cases hpnl : position.unrealized_pnl < -100
  · have hne : position.unrealized_pnl ≠ 0 := by
      intro h0
      rw [h0] at hpnl
      norm_num at hpnl
    have hcond : position.unrealized_pnl ≠ 0 ∧ position.unrealized_pnl < -100 :=
      ⟨hne, hpnl⟩
    unfold shouldClosePosition
    simp only [if_pos hcond]
    exact ⟨fun _ => ⟨fun _ => hpnl, fun _ => trivial⟩, fun _ => trivial⟩
  · have hcond : ¬ (position.unrealized_pnl ≠ 0 ∧ position.unrealized_pnl < -100) := by
      intro h
      exact hpnl h.2
    unfold shouldClosePosition
    simp only [if_neg hcond]
    constructor
    · intro h30
      rw [if_pos h30]
      simp [hpnl]
    · intro h
      exact absurd h hpnl

/-- A position sitting on a −150 loss, used by witnesses. -/
def losingPosition : Position :=
  { samplePosition with unrealized_pnl := -150 }

/-- C4 witness: 10 s after entry, the losing position closes via the
emergency stop and the verdict matches `unrealized_pnl < −100`. -/
theorem shouldClose_min_hold_emergency_witness :
    (10 - losingPosition.entry_time < 30) ∧
    ((shouldClosePosition ⟨3, 1/2⟩ 24 losingPosition 10 100 100 0).1 = true ↔
      losingPosition.unrealized_pnl < -100) ∧
    (shouldClosePosition ⟨3, 1/2⟩ 24 losingPosition 10 100 100 0).1 = true := by
  have h30 : 10 - losingPosition.entry_time < 30 := by
    simp [losingPosition, samplePosition]
    norm_num
  have hpnl : losingPosition.unrealized_pnl < -100 := by
    simp [losingPosition, samplePosition]
    norm_num
  exact ⟨h30,
    (shouldClose_min_hold_emergency ⟨3, 1/2⟩ 24 losingPosition 10 100 100 0).1 h30,
    (shouldClose_min_hold_emergency ⟨3, 1/2⟩ 24 losingPosition 10 100 100 0).2 hpnl⟩

/-!  C8 — position sizing is monotone in confidence, equal on both legs.  -/

/-- The final clamp of `calculate_position_size` is monotone in the
confidence argument: over nonnegative confidences, the product term is
monotone when the base×volatility factor is nonnegative, and otherwise
the whole expression is pinned at the 500 floor. -/
theorem sizeFormula_monotone (B V R T c₁ c₂ : ℚ) (h0 : 0 ≤ c₁) (h12 : c₁ ≤ c₂) :
    max (min (min (B * (1/2 + c₁ * (1/2)) * V) R) T) 500 ≤
    max (min (min (B * (1/2 + c₂ * (1/2)) * V) R) T) 500 := by
  rcases le_or_lt 0 (B * V) with hBV | hBV
  · have hm : B * (1/2 + c₁ * (1/2)) * V ≤ B * (1/2 + c₂ * (1/2)) * V := by
      nlinarith [mul_nonneg hBV (sub_nonneg.mpr h12)]
    exact max_le_max (min_le_min (min_le_min hm le_rfl) le_rfl) le_rfl
  · have h₁ : B * (1/2 + c₁ * (1/2)) * V < 500 := by
      nlinarith [mul_neg_of_neg_of_pos hBV (show (0:ℚ) < 1/2 + c₁ * (1/2) by linarith)]
    have h₂ : B * (1/2 + c₂ * (1/2)) * V < 500 := by
      nlinarith [mul_neg_of_neg_of_pos hBV (show (0:ℚ) < 1/2 + c₂ * (1/2) by linarith)]
    have hx : min (min (B * (1/2 + c₁ * (1/2)) * V) R) T ≤ 500 :=
      le_trans (min_le_left _ _) (le_trans (min_le_left _ _) h₁.le)
    have hy : min (min (B * (1/2 + c₂ * (1/2)) * V) R) T ≤ 500 :=
      le_trans (min_le_left _ _) (le_trans (min_le_left _ _) h₂.le)
    rw [max_eq_right hx, max_eq_right hy]

/-- C8: `calculate_position_size` is monotone non-decreasing in
`signal_confidence` (holding balance, volatility and the performance
stats fixed, over confidences ≥ 0), and the two returned leg sizes are
always equal. -/
theorem positionSize_monotone_and_equal (cfg : TradingConfig)
    (stats : SessionStats) (account_balance : ℚ) (volatility : Option ℚ)
    (c₁ c₂ : ℚ) (h0 : 0 ≤ c₁) (h12 : c₁ ≤ c₂) :
    (calculatePositionSize cfg stats account_balance c₁ volatility).1 ≤
      (calculatePositionSize cfg stats account_balance c₂ volatility).1 ∧
    ∀ c : ℚ, (calculatePositionSize cfg stats account_balance c volatility).1 =
      (calculatePositionSize cfg stats account_balance c volatility).2 := by
  constructor
  · simp only [calculatePositionSize]
    exact sizeFormula_monotone _ _ _ _ c₁ c₂ h0 h12
  · intro c
    rfl

/-- C8 witness: monotone at confidences 1/4 ≤ 3/4 on a $10 000 balance,
and equal legs at confidence 1/2. -/
theorem positionSize_monotone_and_equal_witness :
    ((0:ℚ) ≤ 1/4) ∧ ((1/4 : ℚ) ≤ 3/4) ∧
    ((calculatePositionSize ⟨1000, 1/100, 3, 100⟩ ⟨0, 0⟩ 10000 (1/4) none).1 ≤
      (calculatePositionSize ⟨1000, 1/100, 3, 100⟩ ⟨0, 0⟩ 10000 (3/4) none).1) ∧
    (calculatePositionSize ⟨1000, 1/100, 3, 100⟩ ⟨0, 0⟩ 10000 (1/2) none).1 =
      (calculatePositionSize ⟨1000, 1/100, 3, 100⟩ ⟨0, 0⟩ 10000 (1/2) none).2 := by
  have h := positionSize_monotone_and_equal ⟨1000, 1/100, 3, 100⟩ ⟨0, 0⟩ 10000 none
    (1/4) (3/4) (by norm_num) (by norm_num)
  exact ⟨by norm_num, by norm_num, h.1, h.2 (1/2)⟩

/-!  C2 — decision action under a pre-trade risk violation.  -/

/-- C2 counterexample: with `max_concurrent_pairs = 1` and one open
position the risk check reports a violation and the pair has an open
position, yet the candle-aware `make_decision` emits `"PAUSE"` — not the
claimed `"CLOSE"` (the Close/Hold branch exists only in the dead first
definition of `make_decision`). -/
theorem makeDecision_riskViolation_counterexample :
    (checkRiskLimits ⟨1000, 1/100, 1, 100⟩ ⟨0, 0⟩ [samplePosition] 0 1000).2.1
      = false ∧
    samplePosition.pair_id = "BTCUSDT_ETHUSDT" ∧
    makeDecisionAction ⟨1000, 1/100, 1, 100⟩ ⟨0, 0⟩ "CLOSE" (9/10)
      [samplePosition] "BTCUSDT_ETHUSDT" 1000 0 = "PAUSE" ∧
    ("PAUSE" : String) ≠ "CLOSE" := by
  refine ⟨?_, rfl, ?_, by decide⟩
  · simp [checkRiskLimits, updateDrawdown, positionExposure, samplePosition]
  · simp [makeDecisionAction, combineAgentDecisions, sentimentToAction,
      getRecommendation, checkRiskLimits, updateDrawdown, positionExposure,
      samplePosition]

/-- C2 (amended): in the candle-aware `make_decision`, whenever the
pre-trade risk check reports a violation the emitted decision action is
`"PAUSE"` (the risk agent's recommendation), regardless of whether an
open position exists for the pair. -/
theorem riskViolation_forces_pause (cfg : TradingConfig) (rs : RiskState)
    (strategy_action : String) (strategy_confidence : ℚ)
    (current_positions : List Position) (pair_id : String)
    (account_balance daily_pnl : ℚ)
    (h : (checkRiskLimits cfg rs current_positions daily_pnl account_balance).2.1
      = false) :
    makeDecisionAction cfg rs strategy_action strategy_confidence
      current_positions pair_id account_balance daily_pnl = "PAUSE" := by
  simp [makeDecisionAction, getRecommendation, h]

/-- C2 witness: the amended theorem at the counterexample's state. -/
theorem riskViolation_forces_pause_witness :
    makeDecisionAction ⟨1000, 1/100, 1, 100⟩ ⟨0, 0⟩ "HOLD" (1/2)
      [samplePosition] "BTCUSDT_ETHUSDT" 1000 0 = "PAUSE" := by
  refine riskViolation_forces_pause ⟨1000, 1/100, 1, 100⟩ ⟨0, 0⟩ "HOLD" (1/2)
    [samplePosition] "BTCUSDT_ETHUSDT" 1000 0 ?_
  simp [checkRiskLimits, updateDrawdown, positionExposure, samplePosition]

/-!  C6 — Engle-Granger holds only new entries back on a weak ADF
p-value.  -/

/-- C6 counterexample: with sufficient data, ADF p-value 0.25 ≥ 0.20 and
z-score 0, the strategy called with an open position returns `"CLOSE"`
(mean-reversion exit), not the claimed `"HOLD"`: the cointegration gate
is evaluated only on the entry path. -/
theorem eg_pvalue_counterexample :
    ((2:ℚ)/10 ≤ 1/4) ∧
    (egGenerateSignal 60 60 (1/4) 0 (some "LONG_SPREAD")).action = "CLOSE" ∧
    ("CLOSE" : String) ≠ "HOLD" := by
  refine ⟨by norm_num, ?_, by decide⟩
  simp [egGenerateSignal]
  norm_num

/-- C6 (amended): when no position is open, an ADF p-value ≥ 0.20 forces
the Engle-Granger action to `"HOLD"` (for any z-score and any series
lengths); with an open position the exit rules apply irrespective of the
p-value. -/
theorem eg_hold_when_not_cointegrated (len_a len_b : ℕ) (adf_pvalue zscore : ℚ)
    (hp : 2/10 ≤ adf_pvalue) :
    (egGenerateSignal len_a len_b adf_pvalue zscore none).action = "HOLD" := by
  unfold egGenerateSignal
  by_cases hlen : len_a < 30 ∨ len_b < 30
  · rw [if_pos hlen]
  · rw [if_neg hlen]
    simp only []
    rw [if_pos (not_lt.mpr hp)]

/-- C6 witness: the amended theorem at p-value 0.25 and z-score 5 (deep
in the entry zone, still held back). -/
theorem eg_hold_when_not_cointegrated_witness :
    (egGenerateSignal 60 60 (1/4) 5 none).action = "HOLD" :=
  eg_hold_when_not_cointegrated 60 60 (1/4) 5 (by norm_num)

/-!  C5 — rolling 1-second bound of the rate limiter.  -/

/-- Appending an element and dropping at most the original length from
the front keeps the appended element. -/
theorem mem_append_singleton_drop (l : List ℚ) (x : ℚ) (k : ℕ)
    (hk : k ≤ l.length) : x ∈ (l ++ [x]).drop k := by
  rw [List.drop_append_of_le_length hk]
  exact List.mem_append_right _ (List.mem_singleton_self x)

/-- C5 counterexample: six consecutive `acquire` calls at the same
timestamp 0 all succeed and are all recorded at timestamp 0, i.e. six
successes inside one rolling 1-second window — more than the claimed
five.  (`acquire` sleeps 0.2 s when five timestamps are already recorded
but then appends the stale entry timestamp and returns `True` without
re-checking.) -/
theorem rateLimiter_window_counterexample :
    (acquireRun initRateLimiter [0, 0, 0, 0, 0, 0]).2 =
      [(0, true), (0, true), (0, true), (0, true), (0, true), (0, true)] ∧
    ¬ ((6 : ℕ) ≤ 5) := by
  constructor
  · simp [acquireRun, acquire, initRateLimiter, List.dropWhile]
  · omega

/-- C5 (amended): `acquire` never refuses: every call returns `True` and
records its entry timestamp in `recent_orders`, so the number of
successful acquires inside a rolling 1-second window is not capped at 5
(hitting the per-second count only inserts a 0.2 s wait before the call
is recorded anyway). -/
theorem acquire_always_records_and_succeeds (s : RateLimiterState) (now : ℚ) :
    (acquire s now).2 = true ∧ now ∈ (acquire s now).1.recent_orders := by
  obtain ⟨ro, ic, cu, ce⟩ := s
  have key : ∀ l : List ℚ,
      now ∈ (if (l ++ [now]).length > 100
        then (l ++ [now]).drop ((l ++ [now]).length - 100)
        else l ++ [now]) := by
    intro l
    split_ifs with h
    · refine mem_append_singleton_drop l now _ ?_
      have hlen : (l ++ [now]).length = l.length + 1 := by simp
      omega
    · exact List.mem_append_right _ (List.mem_singleton_self now)
  cases ic <;> cases cu <;>
    simp only [acquire] <;>
    exact ⟨trivial, key _⟩

/-!  C9 — per-symbol price-history update invariants.  -/

/-- Truncating to the newest 10000 entries bounds the length when at most
one element was appended. -/
theorem truncate_length_le (l : List (ℚ × ℚ)) (h : l.length ≤ 10001) :
    (if l.length > 10000 then l.drop (l.length - 10000) else l).length ≤ 10000 := by
  split_ifs with hgt
  · simp only [List.length_drop]
    omega
  · omega

/-- One `updatePriceSeries` step preserves the 10000-point bound. -/
theorem updatePriceSeries_length (series : List (ℚ × ℚ)) (now price : ℚ)
    (h : series.length ≤ 10000) :
    (updatePriceSeries series now price).length ≤ 10000 := by
  unfold updatePriceSeries
  have happ : (series ++ [(now, price)]).length ≤ 10001 := by
    simp
    omega
  split_ifs with hp
  · cases hlast : series.getLast? with
    | none => exact truncate_length_le _ happ
    | some last =>
        dsimp only
        by_cases ht : now - last.1 ≥ 1
        · rw [if_pos ht]
          exact truncate_length_le _ happ
        · rw [if_neg ht]
          exact h
  · exact h

/-- The truncation step keeps the appended sample last and removes
entries only from the front. -/
theorem truncate_getLast_suffix (l : List (ℚ × ℚ)) (x : ℚ × ℚ) :
    (if (l ++ [x]).length > 10000 then
        (l ++ [x]).drop ((l ++ [x]).length - 10000) else (l ++ [x])).getLast?
      = some x ∧
    List.IsSuffix
      (if (l ++ [x]).length > 10000 then
        (l ++ [x]).drop ((l ++ [x]).length - 10000) else (l ++ [x]))
      (l ++ [x]) := by
  split_ifs with hgt
  · have hk : (l ++ [x]).length - 10000 ≤ l.length := by
      simp only [List.length_append, List.length_singleton]
      omega
    constructor
    · rw [List.drop_append_of_le_length hk]
      exact List.getLast?_concat _
    · exact List.drop_suffix _ _
  · exact ⟨List.getLast?_concat _, List.suffix_refl _⟩

/-- C9: the per-symbol price-history update appends `(now, price)` only
when the last stored sample is at least one second older than `now`
(otherwise the series is returned unchanged); every step keeps the length
at most 10000; any truncation removes only the oldest points (the result
is a suffix of the appended series, still ending in the new sample); and
along any sequence of updates from an empty series the length stays at
most 10000. -/
theorem priceHistory_invariants :
    (∀ (series : List (ℚ × ℚ)) (now price t p₀ : ℚ),
      series.getLast? = some (t, p₀) → now - t < 1 →
      updatePriceSeries series now price = series) ∧
    (∀ (series : List (ℚ × ℚ)) (now price : ℚ), series.length ≤ 10000 →
      (updatePriceSeries series now price).length ≤ 10000) ∧
    (∀ (series : List (ℚ × ℚ)) (now price : ℚ),
      updatePriceSeries series now price = series ∨
      ((updatePriceSeries series now price).getLast? = some (now, price) ∧
        List.IsSuffix (updatePriceSeries series now price)
          (series ++ [(now, price)]))) ∧
    (∀ updates : List (ℚ × ℚ),
      (updates.foldl (fun s u => updatePriceSeries s u.1 u.2) []).length ≤ 10000) := by
  refine ⟨?_, updatePriceSeries_length, ?_, ?_⟩
  · intro series now price t p₀ hlast hlt
    unfold updatePriceSeries
    split_ifs with hp
    · rw [hlast]
      dsimp only
      rw [if_neg (not_le.mpr (by linarith : now - (t, p₀).1 < 1))]
    · rfl
  · intro series now price
    unfold updatePriceSeries
    split_ifs with hp
    · cases hlast : series.getLast? with
      | none =>
          right
          exact truncate_getLast_suffix series (now, price)
      | some last =>
          dsimp only
          by_cases ht : now - last.1 ≥ 1
          · rw [if_pos ht]
            right
            exact truncate_getLast_suffix series (now, price)
          · rw [if_neg ht]
            left
            rfl
    · left
      rfl
  · intro updates
    have aux : ∀ (us : List (ℚ × ℚ)) (s : List (ℚ × ℚ)), s.length ≤ 10000 →
        (us.foldl (fun s u => updatePriceSeries s u.1 u.2) s).length ≤ 10000 := by
      intro us
      induction us with
      | nil => intro s hs; exact hs
      | cons u rest ih =>
          intro s hs
          exact ih _ (updatePriceSeries_length s u.1 u.2 hs)
    exact aux updates [] (by simp)

/-- C9 witness: a sample half a second after the last one is rejected; a
sample two seconds later is appended, stays last, and the bounds hold. -/
theorem priceHistory_invariants_witness :
    updatePriceSeries [(0, 5)] (1/2) 7 = [(0, 5)] ∧
    (updatePriceSeries [(0, 5)] 2 7).length ≤ 10000 ∧
    (updatePriceSeries [(0, 5)] 2 7 = [(0, 5)] ∨
      ((updatePriceSeries [(0, 5)] 2 7).getLast? = some (2, 7) ∧
        List.IsSuffix (updatePriceSeries [(0, 5)] 2 7) ([(0, 5)] ++ [(2, 7)]))) ∧
    (([((0:ℚ), (5:ℚ)), (2, 7)].foldl
        (fun s u => updatePriceSeries s u.1 u.2) []).length ≤ 10000) := by
  refine ⟨?_, ?_, ?_, ?_⟩
  · exact priceHistory_invariants.1 [(0, 5)] (1/2) 7 0 5 (by simp) (by norm_num)
  · exact priceHistory_invariants.2.1 [(0, 5)] 2 7 (by simp)
  · exact priceHistory_invariants.2.2.1 [(0, 5)] 2 7
  · exact priceHistory_invariants.2.2.2 [((0:ℚ), (5:ℚ)), (2, 7)]

/-!  C3 — consensus-mode aggregation.  -/

/-- C3 counterexample: (a) with exactly one non-Hold signal
(engle_granger: LONG_SPREAD at 0.9) the aggregated action is `"HOLD"`,
not the signalling strategy's action — the three Hold votes outnumber it;
(b) with two opposing entries of equal weighted confidence
(0.3×0.4 = 0.4×0.3) and two Holds, the consensus label is `"MODERATE"`
(the two-vote Hold bucket dominates), not `"CONFLICTING"`. -/
theorem aggregate_counterexample :
    ((aggregateSignals strategyWeights
        [("engle_granger", "LONG_SPREAD", 9/10), ("orderbook_imbalance", "HOLD", 0),
         ("correlation_rsi", "HOLD", 0), ("mean_reversion", "HOLD", 0)]).action
      = "HOLD" ∧ ("HOLD" : String) ≠ "LONG_SPREAD") ∧
    ((3/10 : ℚ) * (4/10) = (4/10) * (3/10) ∧
     (aggregateSignals strategyWeights
        [("engle_granger", "LONG_SPREAD", 3/10),
         ("orderbook_imbalance", "SHORT_SPREAD", 4/10),
         ("correlation_rsi", "HOLD", 1/2), ("mean_reversion", "HOLD", 1/2)]).consensus
      = "MODERATE" ∧ ("MODERATE" : String) ≠ "CONFLICTING") := by
  refine ⟨⟨?_, by decide⟩, by norm_num, ?_, by decide⟩ <;>
  · simp [aggregateSignals, addVote, pickBest, bucketLt, strategyWeights,
      List.lookup]
    norm_num

/-- C3 (amended): in consensus mode (a) if exactly one of the four
strategies signals a non-Hold action, the aggregated action is `"HOLD"` —
the three Hold votes outvote the single signal; (b) if two strategies
signal opposing entry actions with equal weighted confidence while the
other two signal Hold, the aggregated action is `"HOLD"` (as claimed) but
the consensus label is `"MODERATE"`, since the two-vote Hold bucket wins
the count and `count ≥ len/2` fires before any conflict check. -/
theorem aggregate_amended :
    (∀ (a₁ a₂ a₃ a₄ : String) (c₁ c₂ c₃ c₄ : ℚ),
      ((a₁ ≠ "HOLD" ∧ a₂ = "HOLD" ∧ a₃ = "HOLD" ∧ a₄ = "HOLD") ∨
       (a₁ = "HOLD" ∧ a₂ ≠ "HOLD" ∧ a₃ = "HOLD" ∧ a₄ = "HOLD") ∨
       (a₁ = "HOLD" ∧ a₂ = "HOLD" ∧ a₃ ≠ "HOLD" ∧ a₄ = "HOLD") ∨
       (a₁ = "HOLD" ∧ a₂ = "HOLD" ∧ a₃ = "HOLD" ∧ a₄ ≠ "HOLD")) →
      (aggregateSignals strategyWeights
        [("engle_granger", a₁, c₁), ("orderbook_imbalance", a₂, c₂),
         ("correlation_rsi", a₃, c₃), ("mean_reversion", a₄, c₄)]).action
        = "HOLD") ∧
    (∀ (a₁ a₂ a₃ a₄ : String) (c₁ c₂ c₃ c₄ : ℚ),
      ((a₁ = "LONG_SPREAD" ∧ a₂ = "SHORT_SPREAD" ∧ a₃ = "HOLD" ∧ a₄ = "HOLD" ∧
          c₁ * (4/10) = c₂ * (3/10)) ∨
       (a₁ = "SHORT_SPREAD" ∧ a₂ = "LONG_SPREAD" ∧ a₃ = "HOLD" ∧ a₄ = "HOLD" ∧
          c₁ * (4/10) = c₂ * (3/10)) ∨
       (a₁ = "LONG_SPREAD" ∧ a₃ = "SHORT_SPREAD" ∧ a₂ = "HOLD" ∧ a₄ = "HOLD" ∧
          c₁ * (4/10) = c₃ * (2/10)) ∨
       (a₁ = "SHORT_SPREAD" ∧ a₃ = "LONG_SPREAD" ∧ a₂ = "HOLD" ∧ a₄ = "HOLD" ∧
          c₁ * (4/10) = c₃ * (2/10)) ∨
       (a₁ = "LONG_SPREAD" ∧ a₄ = "SHORT_SPREAD" ∧ a₂ = "HOLD" ∧ a₃ = "HOLD" ∧
          c₁ * (4/10) = c₄ * (1/10)) ∨
       (a₁ = "SHORT_SPREAD" ∧ a₄ = "LONG_SPREAD" ∧ a₂ = "HOLD" ∧ a₃ = "HOLD" ∧
          c₁ * (4/10) = c₄ * (1/10)) ∨
       (a₂ = "LONG_SPREAD" ∧ a₃ = "SHORT_SPREAD" ∧ a₁ = "HOLD" ∧ a₄ = "HOLD" ∧
          c₂ * (3/10) = c₃ * (2/10)) ∨
       (a₂ = "SHORT_SPREAD" ∧ a₃ = "LONG_SPREAD" ∧ a₁ = "HOLD" ∧ a₄ = "HOLD" ∧
          c₂ * (3/10) = c₃ * (2/10)) ∨
       (a₂ = "LONG_SPREAD" ∧ a₄ = "SHORT_SPREAD" ∧ a₁ = "HOLD" ∧ a₃ = "HOLD" ∧
          c₂ * (3/10) = c₄ * (1/10)) ∨
       (a₂ = "SHORT_SPREAD" ∧ a₄ = "LONG_SPREAD" ∧ a₁ = "HOLD" ∧ a₃ = "HOLD" ∧
          c₂ * (3/10) = c₄ * (1/10)) ∨
       (a₃ = "LONG_SPREAD" ∧ a₄ = "SHORT_SPREAD" ∧ a₁ = "HOLD" ∧ a₂ = "HOLD" ∧
          c₃ * (2/10) = c₄ * (1/10)) ∨
       (a₃ = "SHORT_SPREAD" ∧ a₄ = "LONG_SPREAD" ∧ a₁ = "HOLD" ∧ a₂ = "HOLD" ∧
          c₃ * (2/10) = c₄ * (1/10))) →
      ((aggregateSignals strategyWeights
        [("engle_granger", a₁, c₁), ("orderbook_imbalance", a₂, c₂),
         ("correlation_rsi", a₃, c₃), ("mean_reversion", a₄, c₄)]).action
        = "HOLD" ∧
       (aggregateSignals strategyWeights
        [("engle_granger", a₁, c₁), ("orderbook_imbalance", a₂, c₂),
         ("correlation_rsi", a₃, c₃), ("mean_reversion", a₄, c₄)]).consensus
        = "MODERATE")) := by
  constructor
  · intro a₁ a₂ a₃ a₄ c₁ c₂ c₃ c₄ h
    rcases h with ⟨hne, h2, h3, h4⟩ | ⟨h1, hne, h3, h4⟩ |
      ⟨h1, h2, hne, h4⟩ | ⟨h1, h2, h3, hne⟩ <;>
      [subst h2; subst h1; subst h1; subst h1] <;>
      [subst h3; subst h3; subst h2; subst h2] <;>
      [subst h4; subst h4; subst h4; subst h3] <;>
    · simp [aggregateSignals, addVote, pickBest, bucketLt, strategyWeights,
        List.lookup, hne, hne.symm]
      norm_num
  · intro a₁ a₂ a₃ a₄ c₁ c₂ c₃ c₄ h
    rcases h with h | h | h | h | h | h | h | h | h | h | h | h <;>
      obtain ⟨e₁, e₂, e₃, e₄, heq⟩ := h <;>
      subst e₁ <;> subst e₂ <;> subst e₃ <;> subst e₄ <;>
      constructor <;>
    · simp [aggregateSignals, addVote, pickBest, bucketLt, strategyWeights,
        List.lookup, heq]
      norm_num

/-- C3 witness: the amended theorem at a lone `CLOSE` vote from the
order-book strategy and at an equal-weighted LONG/SHORT stand-off. -/
theorem aggregate_amended_witness :
    (aggregateSignals strategyWeights
      [("engle_granger", "HOLD", 0), ("orderbook_imbalance", "CLOSE", 4/5),
       ("correlation_rsi", "HOLD", 0), ("mean_reversion", "HOLD", 0)]).action
      = "HOLD" ∧
    ((aggregateSignals strategyWeights
      [("engle_granger", "LONG_SPREAD", 3/10),
       ("orderbook_imbalance", "SHORT_SPREAD", 4/10),
       ("correlation_rsi", "HOLD", 0), ("mean_reversion", "HOLD", 0)]).action
      = "HOLD" ∧
     (aggregateSignals strategyWeights
      [("engle_granger", "LONG_SPREAD", 3/10),
       ("orderbook_imbalance", "SHORT_SPREAD", 4/10),
       ("correlation_rsi", "HOLD", 0), ("mean_reversion", "HOLD", 0)]).consensus
      = "MODERATE") := by
  constructor
  · exact aggregate_amended.1 "HOLD" "CLOSE" "HOLD" "HOLD" 0 (4/5) 0 0
      (Or.inr (Or.inl ⟨rfl, by decide, rfl, rfl⟩))
  · exact aggregate_amended.2 "LONG_SPREAD" "SHORT_SPREAD" "HOLD" "HOLD"
      (3/10) (4/10) 0 0 (Or.inl ⟨rfl, rfl, rfl, rfl, by norm_num⟩)

end PairsTrading
